import Mathlib

/-!
Verification of the L0 order service: the Order data model and its JSON
round trip (domain/order.go), the durable store (internal/repositories
OrderRepository over the table of migrations/init.sql), the ingestion
consumer (main.go handleEvent), the read coordinator and direct create
(internal/server/server.go Handler.get / Handler.create), and the TTL
cache (pkg/cache InMemory, modelled from the spec because its source is
not part of the reviewed tree).
-/

set_option maxRecDepth 4000

/-- A JSON value, as produced and consumed by encoding/json. Numbers are
modelled as integers: every numeric field of the Order schema is a Go int. -/
inductive Json where
  | null : Json
  | bool : Bool → Json
  | str : String → Json
  | num : Int → Json
  | arr : List Json → Json
  | obj : List (String × Json) → Json

/-- First-match association lookup, modelling how a decoder finds a field
by its JSON key. -/
def lookupKey {α : Type} (k : String) : List (String × α) → Option α
  | [] => none
  | (k2, v) :: rest => if k2 = k then some v else lookupKey k rest

/-- The nested delivery block of domain.Order (order/domain, anonymous
struct with json tags name/phone/zip/city/address/region/email). -/
structure Delivery where
  Name : String
  Phone : String
  Zip : String
  City : String
  Address : String
  Region : String
  Email : String
deriving DecidableEq, Inhabited

/-- The nested payment block of domain.Order. -/
structure Payment where
  Transaction : String
  RequestID : String
  Currency : String
  Provider : String
  Amount : Int
  PaymentDt : Int
  Bank : String
  DeliveryCost : Int
  GoodsTotal : Int
  CustomFee : Int
deriving DecidableEq, Inhabited

/-- One line item of domain.Order. -/
structure Item where
  ChrtID : Int
  TrackNumber : String
  Price : Int
  Rid : String
  Name : String
  Sale : Int
  Size : String
  TotalPrice : Int
  NmID : Int
  Brand : String
  Status : Int
deriving DecidableEq, Inhabited

/-- domain.Order. DateCreated is a Go time.Time; it is modelled by its
RFC3339 JSON string, which is what json.Marshal writes and json.Unmarshal
reads back. -/
structure Order where
  OrderUID : String
  TrackNumber : String
  Entry : String
  delivery : Delivery
  payment : Payment
  items : List Item
  Locale : String
  InternalSignature : String
  CustomerID : String
  DeliveryService : String
  Shardkey : String
  SmID : Int
  DateCreated : String
  OofShard : String
deriving DecidableEq, Inhabited

/-- json.Marshal of the delivery block, keys in struct-tag order. -/
def Delivery.value (d : Delivery) : Json :=
  .obj [("name", .str d.Name), ("phone", .str d.Phone), ("zip", .str d.Zip),
        ("city", .str d.City), ("address", .str d.Address),
        ("region", .str d.Region), ("email", .str d.Email)]

/-- json.Marshal of the payment block. -/
def Payment.value (p : Payment) : Json :=
  .obj [("transaction", .str p.Transaction), ("request_id", .str p.RequestID),
        ("currency", .str p.Currency), ("provider", .str p.Provider),
        ("amount", .num p.Amount), ("payment_dt", .num p.PaymentDt),
        ("bank", .str p.Bank), ("delivery_cost", .num p.DeliveryCost),
        ("goods_total", .num p.GoodsTotal), ("custom_fee", .num p.CustomFee)]

/-- json.Marshal of one line item. -/
def Item.value (it : Item) : Json :=
  .obj [("chrt_id", .num it.ChrtID), ("track_number", .str it.TrackNumber),
        ("price", .num it.Price), ("rid", .str it.Rid), ("name", .str it.Name),
        ("sale", .num it.Sale), ("size", .str it.Size),
        ("total_price", .num it.TotalPrice), ("nm_id", .num it.NmID),
        ("brand", .str it.Brand), ("status", .num it.Status)]

/-- json.Marshal of a whole Order, as performed by Order.Value before the
document is written to the data column, and by the publish handler. -/
def Order.value (o : Order) : Json :=
  .obj [("order_uid", .str o.OrderUID), ("track_number", .str o.TrackNumber),
        ("entry", .str o.Entry), ("delivery", o.delivery.value),
        ("payment", o.payment.value), ("items", .arr (o.items.map Item.value)),
        ("locale", .str o.Locale),
        ("internal_signature", .str o.InternalSignature),
        ("customer_id", .str o.CustomerID),
        ("delivery_service", .str o.DeliveryService),
        ("shardkey", .str o.Shardkey), ("sm_id", .num o.SmID),
        ("date_created", .str o.DateCreated), ("oof_shard", .str o.OofShard)]

/-- Decode a string field the way json.Unmarshal fills a Go string: a
missing key or an explicit null leaves the zero value, a string is taken
as is, any other shape is a type error. -/
def decStr (fs : List (String × Json)) (k : String) : Option String :=
  match lookupKey k fs with
  | none => some ""
  | some .null => some ""
  | some (.str s) => some s
  | some _ => none

/-- Decode an int field, with the same missing/null/zero-value treatment. -/
def decInt (fs : List (String × Json)) (k : String) : Option Int :=
  match lookupKey k fs with
  | none => some 0
  | some .null => some 0
  | some (.num n) => some n
  | some _ => none

/-- json.Unmarshal into the delivery block: null or a missing field keeps
the zero struct, an object is decoded field by field, anything else fails. -/
def Delivery.scan (j : Json) : Option Delivery :=
  match j with
  | .null => some default
  | .obj fs =>
    match decStr fs "name", decStr fs "phone", decStr fs "zip", decStr fs "city",
          decStr fs "address", decStr fs "region", decStr fs "email" with
    | some a1, some a2, some a3, some a4, some a5, some a6, some a7 =>
        some ⟨a1, a2, a3, a4, a5, a6, a7⟩
    | _, _, _, _, _, _, _ => none
  | _ => none

/-- json.Unmarshal into the payment block. -/
def Payment.scan (j : Json) : Option Payment :=
  match j with
  | .null => some default
  | .obj fs =>
    match decStr fs "transaction", decStr fs "request_id", decStr fs "currency",
          decStr fs "provider", decInt fs "amount", decInt fs "payment_dt",
          decStr fs "bank", decInt fs "delivery_cost", decInt fs "goods_total",
          decInt fs "custom_fee" with
    | some a1, some a2, some a3, some a4, some a5, some a6, some a7, some a8,
      some a9, some a10 => some ⟨a1, a2, a3, a4, a5, a6, a7, a8, a9, a10⟩
    | _, _, _, _, _, _, _, _, _, _ => none
  | _ => none

/-- json.Unmarshal into one line item. -/
def Item.scan (j : Json) : Option Item :=
  match j with
  | .null => some default
  | .obj fs =>
    match decInt fs "chrt_id", decStr fs "track_number", decInt fs "price",
          decStr fs "rid", decStr fs "name", decInt fs "sale", decStr fs "size",
          decInt fs "total_price", decInt fs "nm_id", decStr fs "brand",
          decInt fs "status" with
    | some a1, some a2, some a3, some a4, some a5, some a6, some a7, some a8,
      some a9, some a10, some a11 =>
        some ⟨a1, a2, a3, a4, a5, a6, a7, a8, a9, a10, a11⟩
    | _, _, _, _, _, _, _, _, _, _, _ => none
  | _ => none

/-- Decode a JSON array into the items slice, element by element. -/
def decodeItems : List Json → Option (List Item)
  | [] => some []
  | j :: js =>
    match Item.scan j, decodeItems js with
    | some it, some its => some (it :: its)
    | _, _ => none

/-- Decode a nested struct field: missing keeps the zero value of the
nested struct, present is handed to its decoder. -/
def decDelivery (fs : List (String × Json)) (k : String) : Option Delivery :=
  match lookupKey k fs with
  | none => some default
  | some j => Delivery.scan j

/-- Decode the nested payment field. -/
def decPayment (fs : List (String × Json)) (k : String) : Option Payment :=
  match lookupKey k fs with
  | none => some default
  | some j => Payment.scan j

/-- Decode the items field: missing or null is the zero (empty) slice, an
array is decoded elementwise, anything else is a type error. -/
def decItems (fs : List (String × Json)) (k : String) : Option (List Item) :=
  match lookupKey k fs with
  | none => some []
  | some .null => some []
  | some (.arr js) => decodeItems js
  | some _ => none

/-- json.Unmarshal into a domain.Order, as performed by Order.Scan when a
row is read back and by handleEvent on an inbound message body. A top
level null is a no-op that leaves the zero Order, a non-object fails. -/
def Order.scan (j : Json) : Option Order :=
  match j with
  | .null => some default
  | .obj fs =>
    match decStr fs "order_uid", decStr fs "track_number", decStr fs "entry",
          decDelivery fs "delivery", decPayment fs "payment",
          decItems fs "items", decStr fs "locale",
          decStr fs "internal_signature", decStr fs "customer_id",
          decStr fs "delivery_service", decStr fs "shardkey",
          decInt fs "sm_id", decStr fs "date_created", decStr fs "oof_shard" with
    | some a1, some a2, some a3, some a4, some a5, some a6, some a7, some a8,
      some a9, some a10, some a11, some a12, some a13, some a14 =>
        some ⟨a1, a2, a3, a4, a5, a6, a7, a8, a9, a10, a11, a12, a13, a14⟩
    | _, _, _, _, _, _, _, _, _, _, _, _, _, _ => none
  | _ => none

theorem delivery_scan_value (d : Delivery) : Delivery.scan d.value = some d := by
  cases d; rfl

theorem payment_scan_value (p : Payment) : Payment.scan p.value = some p := by
  cases p; rfl

theorem item_scan_value (it : Item) : Item.scan it.value = some it := by
  cases it; rfl

theorem decodeItems_map_value (l : List Item) :
    decodeItems (l.map Item.value) = some l := by
  induction l with
  | nil => rfl
  | cons it rest ih => simp [decodeItems, item_scan_value, ih]

theorem order_scan_value (o : Order) : Order.scan o.value = some o := by
  cases o with
  | mk a1 a2 a3 dl pm its a7 a8 a9 a10 a11 a12 a13 a14 =>
    simp [Order.value, Order.scan, decStr, decInt, decDelivery, decPayment,
          decItems, lookupKey, delivery_scan_value, payment_scan_value,
          decodeItems_map_value]

/-- The error taxonomy of the service: conflict is the unique-violation
raised by the primary key on insert, notFound is the no-rows result of the
select by id, decodeFailed is a json.Unmarshal or row-scan failure, and
valueTooLong is the varchar(19) over-length rejection. -/
inductive Err where
  | conflict
  | notFound
  | decodeFailed
  | valueTooLong
deriving DecidableEq

/-- The contents of the table public.order from init.sql: rows of
(order_uid varchar(19) primary key, data jsonb). -/
structure StoreState where
  rows : List (String × Json)

/-- Postgres varchar(n) coercion of a string to be stored: a value within
the declared length is kept as is; an over-length value raises an error
unless every excess character is a space, in which case it is silently
truncated to n characters and stored. -/
def varcharFit (n : Nat) (s : String) : Option String :=
  if s.length ≤ n then some s
  else if (s.toList.drop n).all (fun c => c == ' ') then some ⟨s.toList.take n⟩
  else none

/-- OrderRepository.Create: INSERT INTO public.order (order_uid, data)
VALUES (:id, :data), with :data the json.Marshal of the whole order. The
key passes the varchar(19) coercion first (error, or silent truncation of
an all-space excess), then the primary key constraint rejects a duplicate;
on success exactly one row is inserted and RowsAffected is 1. -/
def StoreState.create (s : StoreState) (o : Order) : Except Err Int × StoreState :=
  match varcharFit 19 o.OrderUID with
  | none => (.error .valueTooLong, s)
  | some key =>
    if (lookupKey key s.rows).isSome then (.error .conflict, s)
    else (.ok 1, ⟨(key, o.value) :: s.rows⟩)

/-- OrderRepository.Get: SELECT data FROM public.order WHERE order_uid=$1,
then Order.Scan on the jsonb value. No row is the NotFound error. -/
def StoreState.get (s : StoreState) (id : String) : Except Err Order :=
  match lookupKey id s.rows with
  | none => .error .notFound
  | some j =>
    match Order.scan j with
    | some o => .ok o
    | none => .error .decodeFailed

/-- The operations a request handler performs against its dependencies,
recorded in call order. -/
inductive Ev where
  | cacheHas (k : String)
  | cacheGet (k : String)
  | cacheSet (k : String)
  | storeGet (k : String)
  | storeCreate (k : String)
deriving DecidableEq

/-- Whether an operation touches the cache. -/
def Ev.isCacheOp : Ev → Bool
  | .cacheHas _ => true
  | .cacheGet _ => true
  | .cacheSet _ => true
  | .storeGet _ => false
  | .storeCreate _ => false

/-- An inbound message body: none stands for bytes that are not valid
JSON, some j for the parsed JSON value. Decoding into a domain.Order is
json.Unmarshal; any failure is the consumer's decode error. -/
def decodePayload : Option Json → Except Err Order
  | none => .error .decodeFailed
  | some j =>
    match Order.scan j with
    | some o => .ok o
    | none => .error .decodeFailed

/-- handleEvent from main.go: unmarshal the message body into an Order; on
failure return the wrapped decode error without touching the repository;
on success call Create and propagate its outcome. The returned trace
records the repository calls made. -/
def handleEvent (s : StoreState) (payload : Option Json) :
    Except Err Unit × StoreState × List Ev :=
  match decodePayload payload with
  | .error e => (.error e, s, [])
  | .ok o =>
    match s.create o with
    | (.error e, s2) => (.error e, s2, [.storeCreate o.OrderUID])
    | (.ok _, s2) => (.ok (), s2, [.storeCreate o.OrderUID])

/-- The server.Cache interface: Set returns an error and the mutated
cache, Get returns (value, found, error), Has returns a Bool. The state
type is abstract because the handler is written against the interface. -/
structure CacheImpl (σ : Type) where
  set : σ → String → Order → Nat → Option Unit × σ
  get : σ → String → Order × Bool × Option Unit
  has : σ → String → Bool

/-- One hour in nanoseconds, the fixed TTL time.Hour the handler passes to
Cache.Set. -/
def ttlHour : Nat := 3600 * 1000000000

/-- What Handler.get sends back: the JSON body with an error field, the
JSON body wrapping an order, or an error returned to the framework. -/
inductive GetResult where
  | errorBody (msg : String)
  | orderBody (o : Order)
  | failure (e : Err)
deriving DecidableEq

/-- Handler.get from server.go: an empty id returns the error body without
any lookup; if Cache.Has is true the value of Cache.Get is returned with
its found flag and error discarded; otherwise the store is read, a store
error is returned as is, and on success Cache.Set's error is discarded
before the order is returned. -/
def handlerGet {σ : Type} (C : CacheImpl σ) (cs : σ) (s : StoreState)
    (key : String) : GetResult × σ × List Ev :=
  if key = "" then (.errorBody "empty key", cs, [])
  else if C.has cs key then
    (.orderBody (C.get cs key).1, cs, [.cacheHas key, .cacheGet key])
  else
    match s.get key with
    | .error e => (.failure e, cs, [.cacheHas key, .storeGet key])
    | .ok o =>
      let r := C.set cs key o ttlHour
      (.orderBody o, r.2, [.cacheHas key, .storeGet key, .cacheSet key])

/-- What Handler.create sends back: the rows_affected body, an error, or
the body-parser failure. -/
inductive CreateResult where
  | rowsAffected (n : Int)
  | failure (e : Err)
  | badBody
deriving DecidableEq

/-- Handler.create from server.go: parse the request body (none models a
BodyParser failure), call OrderRepository.Create, and return either the
error or the rows_affected count. The handler owns a cache but never
calls it. -/
def handlerCreate {σ : Type} (_C : CacheImpl σ) (cs : σ) (s : StoreState)
    (body : Option Order) : CreateResult × σ × StoreState × List Ev :=
  match body with
  | none => (.badBody, cs, s, [])
  | some req =>
    match s.create req with
    | (.error e, s2) => (.failure e, cs, s2, [.storeCreate req.OrderUID])
    | (.ok n, s2) => (.rowsAffected n, cs, s2, [.storeCreate req.OrderUID])

/-- One cache entry: the stored order and its absolute expiration time. -/
structure CacheEntry where
  value : Order
  expiresAt : Nat

/-- The in-memory cache state, a map from key to entry. -/
structure InMemory where
  entries : List (String × CacheEntry)

/-- Modelled from the spec: the TTL cache implementation order/pkg/cache
(NewInMemory) is not part of the reviewed tree. Set stores value under key
with absolute expiration now + ttl; a later Set on the same key overwrites
both value and expiration. -/
def InMemory.set (c : InMemory) (now : Nat) (k : String) (v : Order)
    (ttl : Nat) : InMemory :=
  ⟨(k, ⟨v, now + ttl⟩) :: c.entries⟩

/-- Modelled from the spec: Get returns (value, true) only while the
current time is before the entry's expiration, and the zero value with
false once it has expired or when the key is absent; a stale value is
never returned. -/
def InMemory.get (c : InMemory) (now : Nat) (k : String) : Order × Bool :=
  match lookupKey k c.entries with
  | some e => if now < e.expiresAt then (e.value, true) else (default, false)
  | none => (default, false)

/-- Modelled from the spec: Has reports presence under the same
non-expired condition as Get. -/
def InMemory.has (c : InMemory) (now : Nat) (k : String) : Bool :=
  (c.get now k).2

/-- A full concrete order in the shape of the well-known test payload:
every field populated, one line item. -/
def sampleOrder : Order :=
  ⟨"b563feb7b2b84b6test", "WBILMTESTTRACK", "WBIL",
   ⟨"Test Testov", "+9720000000", "2639809", "Kiryat Mozkin",
    "Ploshad Mira 15", "Kraiot", "test"⟩,
   ⟨"b563feb7b2b84b6test", "", "USD", "wbpay", 1817, 1637907727, "alpha",
    1500, 317, 0⟩,
   [⟨9934930, "WBILMTESTTRACK", 453, "ab4219087a764ae0btest", "Mascaras",
     30, "0", 317, 2389212, "Vivienne Sabo", 202⟩],
   "en", "", "test", "meest", "9", 99, "2021-11-26T06:22:19Z", "1"⟩

/-- A small concrete order keyed k1, used to populate concrete stores. -/
def demoOrder : Order :=
  ⟨"k1", "TRACK", "EX", default, default, [], "en", "", "cust", "meest",
   "9", 7, "2021-11-26T06:22:19Z", "1"⟩

/-- An order whose key is 20 characters, one over the varchar(19) limit,
with a non-space excess character. -/
def longOrder : Order :=
  ⟨"01234567890123456789", "", "", default, default, [], "", "", "", "",
   "", 0, "", ""⟩

/-- An order whose key is 20 characters where the one excess character is
a trailing space, the case varchar(19) silently truncates. -/
def spaceOrder : Order :=
  ⟨"0123456789012345678 ", "", "", default, default, [], "", "", "", "",
   "", 0, "", ""⟩

/-- A varchar-coerced key never exceeds the declared length. -/
theorem varcharFit_length {n : Nat} {s key : String}
    (h : varcharFit n s = some key) : key.length ≤ n := by
  unfold varcharFit at h
  by_cases h1 : s.length ≤ n
  · rw [if_pos h1] at h
    injection h with h
    subst h
    exact h1
  · rw [if_neg h1] at h
    by_cases h2 : (s.toList.drop n).all (fun c => c == ' ') = true
    · rw [if_pos h2] at h
      injection h with h
      subst h
      show (List.take n s.toList).length ≤ n
      rw [List.length_take]
      exact Nat.min_le_left _ _
    · rw [if_neg h2] at h
      cases h

/-- A concrete store holding exactly demoOrder under its key. -/
def demoStore : StoreState := ⟨[("k1", demoOrder.value)]⟩

/-- A cache in the state the two-step Has/Get protocol can observe when an
entry expires between the calls: Has still answers true while Get already
reports not found and hands back the zero value. -/
def expiredCache : CacheImpl Unit :=
  ⟨fun s _ _ _ => (none, s), fun _ _ => (default, false, none),
   fun _ _ => true⟩

/-- A cache that is always empty and whose Set always fails. -/
def failingSetCache : CacheImpl Unit :=
  ⟨fun s _ _ _ => (some (), s), fun _ _ => (default, false, none),
   fun _ _ => false⟩

/-- A concrete in-memory cache with one entry that expires at time 50. -/
def demoCache : InMemory := ⟨[("k1", ⟨demoOrder, 50⟩)]⟩

/-- Claim C1, counterexample: with a cache whose Has answers true while
Get reports not found, the handler returns the zero-value document taken
from Cache.Get and never calls Store.Get — it does not fall through to the
store as the claim states. -/
theorem C1_counterexample :
    expiredCache.has () "k1" = true ∧
    (expiredCache.get () "k1").2.1 = false ∧
    handlerGet expiredCache () demoStore "k1" =
      (.orderBody default, (), [.cacheHas "k1", .cacheGet "k1"]) ∧
    (Ev.storeGet "k1") ∉ (handlerGet expiredCache () demoStore "k1").2.2 := by
  decide

/-- Claim C1, amended: on a non-empty id for which Cache.Has is true, the
handler returns the value component of Cache.Get unconditionally — the
found flag and error are discarded and Store.Get is never consulted, so a
failing Cache.Get yields the zero-value document instead of a fallthrough. -/
theorem C1_amended_cached_value_unconditional {σ : Type} (C : CacheImpl σ)
    (cs : σ) (s : StoreState) (key : String) (hk : key ≠ "")
    (hh : C.has cs key = true) :
    handlerGet C cs s key =
      (.orderBody (C.get cs key).1, cs, [.cacheHas key, .cacheGet key]) := by
  simp [handlerGet, hk, hh]

/-- Claim C1, witness for the amended theorem at a concrete cache, store
and key. -/
theorem C1_amended_witness :
    handlerGet expiredCache () demoStore "k1" =
      (.orderBody (expiredCache.get () "k1").1, (),
       [.cacheHas "k1", .cacheGet "k1"]) :=
  C1_amended_cached_value_unconditional expiredCache () demoStore "k1"
    (by decide) (by decide)

/-- Claim C2: a message whose body does not decode into an Order causes no
repository call at all — the store is unchanged and the trace is empty —
and the consumer returns the decode error; being a total function it
cannot crash. -/
theorem C2_decode_failure_writes_nothing (s : StoreState)
    (payload : Option Json)
    (h : decodePayload payload = .error .decodeFailed) :
    handleEvent s payload = (.error .decodeFailed, s, []) := by
  simp [handleEvent, h]

/-- Claim C2, witness: a schema-violating body (order_uid carrying a
number) is rejected with zero store writes; the same theorem applied to
the non-JSON body none behaves identically. -/
theorem C2_witness :
    handleEvent ⟨[]⟩ (some (.obj [("order_uid", .num 5)])) =
      (.error .decodeFailed, ⟨[]⟩, []) ∧
    handleEvent ⟨[]⟩ none = (.error .decodeFailed, ⟨[]⟩, []) :=
  ⟨C2_decode_failure_writes_nothing ⟨[]⟩ _ rfl,
   C2_decode_failure_writes_nothing ⟨[]⟩ none rfl⟩

/-- Claim C3: with a key of legal length, Create on an already-present
order_uid fails with Conflict and leaves the store — hence the document
stored under that key — unchanged, while Create on a fresh order_uid
reports rowsAffected 1. -/
theorem C3_duplicate_create_conflict (s : StoreState) (d : Order)
    (hlen : d.OrderUID.length ≤ 19) :
    ((lookupKey d.OrderUID s.rows).isSome = true →
       s.create d = (.error .conflict, s)) ∧
    (lookupKey d.OrderUID s.rows = none → (s.create d).1 = .ok 1) := by
  constructor
  · intro h
    simp [StoreState.create, varcharFit, hlen, h]
  · intro h
    simp [StoreState.create, varcharFit, hlen, h]

/-- Claim C3, witness: creating demoOrder on a store already holding it is
a Conflict that changes nothing, and creating it on an empty store affects
one row. -/
theorem C3_witness :
    demoStore.create demoOrder = (.error .conflict, demoStore) ∧
    ((⟨[]⟩ : StoreState).create demoOrder).1 = .ok 1 :=
  ⟨(C3_duplicate_create_conflict demoStore demoOrder (by decide)).1 rfl,
   (C3_duplicate_create_conflict ⟨[]⟩ demoOrder (by decide)).2 rfl⟩

/-- Claim C4: for a valid document — one whose order_uid respects the
19-character bound of the schema — a successful Create followed by Get of
the same order_uid returns a document field-for-field equal to the one
created: the JSON value written to the data column decodes back to the
identical Order. -/
theorem C4_create_then_get_roundtrip (s : StoreState) (d : Order)
    (hlen : d.OrderUID.length ≤ 19) (h : (s.create d).1 = .ok 1) :
    (s.create d).2.get d.OrderUID = .ok d := by
  by_cases hdup : (lookupKey d.OrderUID s.rows).isSome
  · simp [StoreState.create, varcharFit, hlen, hdup] at h
  · simp [StoreState.create, varcharFit, hlen, hdup, StoreState.get,
          lookupKey, order_scan_value]

/-- Claim C4, witness: the fully populated sampleOrder survives the
create-then-get round trip on an empty store. -/
theorem C4_witness :
    ((⟨[]⟩ : StoreState).create sampleOrder).2.get sampleOrder.OrderUID =
      .ok sampleOrder :=
  C4_create_then_get_roundtrip ⟨[]⟩ sampleOrder (by decide) rfl

/-- Claim C5, counterexample: the empty id has no cache entry and no store
record, yet the handler answers with the error body, not with a NotFound
error. -/
theorem C5_counterexample :
    failingSetCache.has () "" = false ∧
    lookupKey "" (⟨[]⟩ : StoreState).rows = none ∧
    handlerGet failingSetCache () ⟨[]⟩ "" = (.errorBody "empty key", (), []) ∧
    (handlerGet failingSetCache () ⟨[]⟩ "").1 ≠ .failure .notFound :=
  ⟨rfl, rfl, rfl, by decide⟩

/-- Claim C5, amended: for every non-empty id absent from both the cache
and the store, the read surfaces NotFound and never a default document;
the empty id instead short-circuits to the error body before any lookup. -/
theorem C5_amended_unknown_id_notfound {σ : Type} (C : CacheImpl σ) (cs : σ)
    (s : StoreState) (key : String) (hk : key ≠ "")
    (hc : C.has cs key = false) (hs : lookupKey key s.rows = none) :
    handlerGet C cs s key =
      (.failure .notFound, cs, [.cacheHas key, .storeGet key]) := by
  simp [handlerGet, hk, hc, StoreState.get, hs]

/-- Claim C5, witness for the amended theorem on an empty cache and empty
store. -/
theorem C5_amended_witness :
    handlerGet failingSetCache () ⟨[]⟩ "k1" =
      (.failure .notFound, (), [.cacheHas "k1", .storeGet "k1"]) :=
  C5_amended_unknown_id_notfound failingSetCache () ⟨[]⟩ "k1" (by decide)
    rfl rfl

/-- Claim C6: on a cache miss followed by a successful store read, the
document fetched from the store is returned whatever Cache.Set does: the
cache-write outcome is discarded and never fails the read. -/
theorem C6_cache_set_error_swallowed {σ : Type} (C : CacheImpl σ) (cs : σ)
    (s : StoreState) (key : String) (o : Order) (hk : key ≠ "")
    (hc : C.has cs key = false) (hs : s.get key = .ok o) :
    (handlerGet C cs s key).1 = .orderBody o := by
  simp [handlerGet, hk, hc, hs]

/-- Claim C6, witness: a cache whose Set always fails still lets the read
return the stored document. -/
theorem C6_witness :
    (handlerGet failingSetCache () demoStore "k1").1 = .orderBody demoOrder :=
  C6_cache_set_error_swallowed failingSetCache () demoStore "k1" demoOrder
    (by decide) rfl rfl

/-- Claim C7: after Set(k, v, ttl) at time now, Get at time t returns
(v, true) exactly while t is before now + ttl and the zero value with
false once the ttl has elapsed; and in any cache state an entry already
expired at time t is never served: Get yields the zero value and false. -/
theorem C7_ttl_cache (c : InMemory) (now : Nat) (k : String) (v : Order)
    (ttl t : Nat) :
    ((c.set now k v ttl).get t k =
       if t < now + ttl then (v, true) else (default, false)) ∧
    (∀ e, lookupKey k c.entries = some e → e.expiresAt ≤ t →
       c.get t k = (default, false)) := by
  constructor
  · simp [InMemory.set, InMemory.get, lookupKey]
  · intro e he ht
    simp [InMemory.get, he, Nat.not_lt.mpr ht]

/-- Claim C7, witness: a fresh entry is served before its deadline and
refused from that deadline on, and demoCache's entry expired at 50 is not
served at 60. -/
theorem C7_witness :
    (demoCache.set 100 "k2" sampleOrder 10).get 105 "k2" =
      (sampleOrder, true) ∧
    (demoCache.set 100 "k2" sampleOrder 10).get 110 "k2" =
      (default, false) ∧
    demoCache.get 60 "k1" = (default, false) :=
  ⟨by simpa using (C7_ttl_cache demoCache 100 "k2" sampleOrder 10 105).1,
   by simpa using (C7_ttl_cache demoCache 100 "k2" sampleOrder 10 110).1,
   (C7_ttl_cache demoCache 0 "k1" demoOrder 0 60).2 ⟨demoOrder, 50⟩ rfl
     (by decide)⟩

/-- Claim C8: neither the direct create handler nor the ingestion consumer
touches the cache — create returns the cache state it was given and
neither path's operation trace contains a cache operation. -/
theorem C8_writes_never_touch_cache {σ : Type} (C : CacheImpl σ) (cs : σ)
    (s : StoreState) (body : Option Order) (payload : Option Json) :
    (handlerCreate C cs s body).2.1 = cs ∧
    ((handlerCreate C cs s body).2.2.2.all fun e => !e.isCacheOp) = true ∧
    ((handleEvent s payload).2.2.all fun e => !e.isCacheOp) = true := by
  refine ⟨?_, ?_, ?_⟩
  · cases body with
    | none => rfl
    | some req =>
      simp only [handlerCreate]
      rcases hsc : s.create req with ⟨r, s2⟩
      cases r <;> simp [hsc]
  · cases body with
    | none => rfl
    | some req =>
      simp only [handlerCreate]
      rcases hsc : s.create req with ⟨r, s2⟩
      cases r <;> simp [hsc, Ev.isCacheOp]
  · simp only [handleEvent]
    rcases hd : decodePayload payload with e | o
    · simp
    · rcases hsc : s.create o with ⟨r, s2⟩
      cases r <;> simp [hsc, Ev.isCacheOp]

/-- Claim C9, counterexample: a 20-character order_uid whose one excess
character is a trailing space is not rejected — Postgres truncates the
all-space excess at the varchar(19) coercion, the Create succeeds with
rowsAffected 1, and a record is stored under the truncated key. -/
theorem C9_counterexample :
    spaceOrder.OrderUID.length > 19 ∧
    ((⟨[]⟩ : StoreState).create spaceOrder).1 = .ok 1 ∧
    ((⟨[]⟩ : StoreState).create spaceOrder).2.rows =
      [("0123456789012345678", spaceOrder.value)] :=
  ⟨by decide, rfl, rfl⟩

/-- Claim C9, amended: an order_uid longer than 19 characters whose excess
characters are not all spaces is rejected by the varchar(19) key column
with the store left unchanged (an all-space excess is instead silently
truncated to 19 characters), and Create preserves the invariant that
every stored row is keyed by at most 19 characters. -/
theorem C9_amended_key_length (s : StoreState) (d : Order) :
    (d.OrderUID.length > 19 →
       (d.OrderUID.toList.drop 19).all (fun c => c == ' ') = false →
       s.create d = (.error .valueTooLong, s)) ∧
    ((∀ p, p ∈ s.rows → p.1.length ≤ 19) →
       ∀ q, q ∈ (s.create d).2.rows → q.1.length ≤ 19) := by
  constructor
  · intro hgt hsp
    unfold StoreState.create varcharFit
    rw [if_neg (Nat.not_le.mpr hgt), if_neg (by simp only [hsp]; decide)]
  · intro hinv q hq
    rcases hvf : varcharFit 19 d.OrderUID with _ | key
    · simp [StoreState.create, hvf] at hq
      exact hinv q hq
    · by_cases hdup : (lookupKey key s.rows).isSome
      · simp [StoreState.create, hvf, hdup] at hq
        exact hinv q hq
      · simp [StoreState.create, hvf, hdup] at hq
        rcases hq with rfl | hq
        · simpa using varcharFit_length hvf
        · exact hinv q hq

/-- Claim C9, witness: a 20-character key with a non-space excess is
refused on an empty store, and the row created for demoOrder is keyed by
at most 19 characters. -/
theorem C9_amended_witness :
    (⟨[]⟩ : StoreState).create longOrder = (.error .valueTooLong, ⟨[]⟩) ∧
    ("k1", demoOrder.value).1.length ≤ 19 :=
  ⟨(C9_amended_key_length ⟨[]⟩ longOrder).1 (by decide) (by decide),
   (C9_amended_key_length ⟨[]⟩ demoOrder).2 (by intro p hp; simp at hp)
     ("k1", demoOrder.value) (List.mem_cons_self _ _)⟩

/-- Claim C10: with an empty id the handler returns the JSON error body
for "empty key" and performs no cache or store operation — its trace is
empty and the cache state is returned untouched. -/
theorem C10_empty_key {σ : Type} (C : CacheImpl σ) (cs : σ) (s : StoreState) :
    handlerGet C cs s "" = (.errorBody "empty key", cs, []) := rfl
